import Mathlib

/-!
# JumpCloud application resource: payload builder, state populator, lifecycle

Shallow embedding of `internal/provider/resource_application.go`.

Modelling decisions, all read off the source:

* `schema.ResourceData` is a record with one typed field per attribute declared in
  `resourceApplication`, plus the resource identifier. `d.Set(k, v)` with a value of the
  declared type writes the field and returns `nil`, so the `err != nil` returns that
  directly follow such a `Set` have no branch here.
* `d.Get(k)` returns an `interface{}`: a `GoValue` tagged with its dynamic type, which
  the schema fixes (`string` for `TypeString`, `bool` for `TypeBool`, `[]interface{}`
  for `TypeList`). A type assertion `x.(T)` in the single-value form yields the value
  when the dynamic type is `T` and panics otherwise.
* `d.Set("constant_attributes", v)` with `v` of type `[]Constant` reads the elements by
  reflection, which sees exported fields only; the result of this `Set` is discarded
  by the source.
* Every `&T{...}` in the source is a Go pointer; pointer-typed fields are `Option`,
  and selecting a field through a `nil` pointer ends the run in `Outcome.panicked`.
* The HTTP client and the metadata-document fetch are external collaborators. Each is a
  function from its arguments to `Except GoError _`; an operation calls each of them at
  most once, so a function describes any behaviour they may show within one invocation.
* Every operation returns a `Run`: the external calls it issued, in order, and how it
  ended (returned diagnostics or a panic), with the record as it was left.
-/

namespace Provider

/-- Go `error`: `Error` is the text of `err.Error()`, `code` stands for the rest of the
value (two errors may print the same text). -/
structure GoError where
  Error : String
  code : Nat
deriving DecidableEq, Repr

/-- One constant attribute, `type Constant struct`. -/
structure Constant where
  name : String
  value : String
  read_only : Bool
  required : Bool
  visible : Bool
deriving DecidableEq, Repr

namespace jcapiv1

/-- Entry of the constant-attributes value list of the wire format. -/
structure ApplicationConfigConstantAttributesValue where
  Name : String
  Value : String
  ReadOnly : Bool
  Required : Bool
  Visible : Bool
deriving DecidableEq, Repr

/-- Field-wrapper of the wire format; the source uses this one type for all five
wrapped scalars. -/
structure ApplicationConfigAcsUrl where
  Type_ : String
  Label : String
  Value : String
  Required : Bool
  Visible : Bool
  ReadOnly : Bool
  Position : Int
deriving DecidableEq, Repr

/-- Wrapper around the list of constants. -/
structure ApplicationConfigConstantAttributes where
  Value : List ApplicationConfigConstantAttributesValue
deriving DecidableEq, Repr

/-- Placeholder sub-object, built as the empty literal. -/
structure ApplicationConfigDatabaseAttributes where
deriving DecidableEq, Repr

/-- Nested configuration object; every member is a pointer in the source. -/
structure ApplicationConfig where
  AcsUrl : Option ApplicationConfigAcsUrl
  ConstantAttributes : Option ApplicationConfigConstantAttributes
  DatabaseAttributes : Option ApplicationConfigDatabaseAttributes
  IdpCertificate : Option ApplicationConfigAcsUrl
  IdpEntityId : Option ApplicationConfigAcsUrl
  IdpPrivateKey : Option ApplicationConfigAcsUrl
  SpEntityId : Option ApplicationConfigAcsUrl
deriving DecidableEq, Repr

/-- Remote application, restricted to the members the source names. `Id` is the zero
value in a composite literal that does not set it. -/
structure Application where
  Id : String
  Beta : Bool
  Name : String
  DisplayLabel : String
  SsoUrl : String
  Config : Option ApplicationConfig
deriving DecidableEq, Repr

/-- The four calls of `client.ApplicationsApi` used by the resource. -/
structure ApplicationsApi where
  ApplicationsPost : Application → Except GoError Application
  ApplicationsGet : String → Except GoError Application
  ApplicationsPut : String → Application → Except GoError Application
  ApplicationsDelete : String → Except GoError Application

/-- Client configuration: `DefaultHeader` is a Go map read with the zero-value
default, so it is a total function on header names. -/
structure Configuration where
  DefaultHeader : String → String

end jcapiv1

/-- Value held in an `interface{}`, tagged with its dynamic type. `interfaceSlice` is
a `[]interface{}` whose entries are the attribute maps of a list of nested resources;
`resourceDataSlice` is a `[]schema.ResourceData`, each element given by the five
sub-attributes the source reads from it. -/
inductive GoValue where
  | nil
  | string (s : String)
  | bool (b : Bool)
  | interfaceSlice (entries : List Constant)
  | resourceDataSlice (datas : List Constant)
deriving DecidableEq, Repr

/-- Type assertion `x.(string)`; `none` is the panic of the single-value form. -/
def GoValue.assertString : GoValue → Option String
  | .string s => some s
  | _ => none

/-- Type assertion `x.(bool)`; `none` is the panic of the single-value form. -/
def GoValue.assertBool : GoValue → Option Bool
  | .bool b => some b
  | _ => none

/-- Type assertion `x.([]schema.ResourceData)`; `none` is the panic of the single-value
form. It holds of no other dynamic type, `[]interface{}` included. -/
def GoValue.assertResourceDataSlice : GoValue → Option (List Constant)
  | .resourceDataSlice datas => some datas
  | _ => none

/-- Exported fields of a `Constant`, as reflection sees them: `name`, `value`,
`read_only`, `required` and `visible` (lines 12-18) all start with a lower-case letter,
so there is none. -/
def Constant.exportedFields (_ : Constant) : List (String × GoValue) := []

/-- List entry stored from the fields handed to the writer; a sub-attribute that was
not handed over reads back as the zero value of its type. -/
def Constant.ofFields (fields : List (String × GoValue)) : Constant :=
  { name := ((fields.lookup "name").bind GoValue.assertString).getD ""
    value := ((fields.lookup "value").bind GoValue.assertString).getD ""
    read_only := ((fields.lookup "read_only").bind GoValue.assertBool).getD false
    required := ((fields.lookup "required").bind GoValue.assertBool).getD false
    visible := ((fields.lookup "visible").bind GoValue.assertBool).getD false }

namespace schema

/-- Attribute bag of the resource, typed after the schema of `resourceApplication`.
`metadata_xml` is computed: it is `none` until some `Set` writes it. -/
structure ResourceData where
  id : String
  name : String
  beta : Bool
  display_label : String
  sso_url : String
  learn_more : String
  constant_attributes : List Constant
  idp_certificate : String
  idp_entity_id : String
  idp_private_key : String
  sp_entity_id : String
  acs_url : String
  metadata_xml : Option String
deriving DecidableEq, Repr

/-- Reads the identifier, `d.Id()`. -/
def ResourceData.Id (d : ResourceData) : String := d.id

/-- Writes the identifier, `d.SetId(v)`. -/
def ResourceData.SetId (d : ResourceData) (v : String) : ResourceData := { d with id := v }

/-- Reads an attribute, `d.Get(key)`: the stored value under the dynamic type that the
schema of `resourceApplication` gives the attribute. -/
def ResourceData.Get (d : ResourceData) (key : String) : GoValue :=
  if key = "name" then .string d.name
  else if key = "beta" then .bool d.beta
  else if key = "display_label" then .string d.display_label
  else if key = "sso_url" then .string d.sso_url
  else if key = "learn_more" then .string d.learn_more
  else if key = "constant_attributes" then .interfaceSlice d.constant_attributes
  else if key = "idp_certificate" then .string d.idp_certificate
  else if key = "idp_entity_id" then .string d.idp_entity_id
  else if key = "idp_private_key" then .string d.idp_private_key
  else if key = "sp_entity_id" then .string d.sp_entity_id
  else if key = "acs_url" then .string d.acs_url
  else if key = "metadata_xml" then .string (d.metadata_xml.getD "")
  else .nil

/-- Writes the list attribute from a `[]Constant`, line 176: one entry per element, made
of the fields reflection can read from it. The length is kept, the sub-attributes are
not. -/
def ResourceData.SetConstantAttributes (d : ResourceData) (v : List Constant) : ResourceData :=
  { d with constant_attributes := v.map (fun c => Constant.ofFields c.exportedFields) }

end schema

open jcapiv1 schema

/-- An external call, with the arguments it was issued with. -/
inductive Call where
  | post (body : Application)
  | get (id : String)
  | put (id : String) (body : Application)
  | delete (id : String)
  | metadataXml (orgId : String) (id : String) (apiKey : String)
deriving DecidableEq, Repr

/-- Recognises the secondary metadata-document fetch. -/
def Call.isMetadataXml : Call → Bool
  | .metadataXml _ _ _ => true
  | _ => false

/-- How an operation ends: it returns diagnostics (`none` is `nil`), or it panics (on
a nil pointer or a failed type assertion). The record is mutated in place, so both carry the record `d` as it stands
at that moment. -/
inductive Outcome where
  | returned (d : ResourceData) (diags : Option GoError)
  | panicked (d : ResourceData)
deriving DecidableEq, Repr

/-- The record as the run left it. -/
def Outcome.record : Outcome → ResourceData
  | .returned d _ => d
  | .panicked d => d

/-- Diagnostics of a run that returned; `none` when it panicked. -/
def Outcome.diags : Outcome → Option (Option GoError)
  | .returned _ diags => some diags
  | .panicked _ => none

/-- Calls issued by one invocation and the way it ended. -/
structure Run where
  calls : List Call
  outcome : Outcome
deriving DecidableEq, Repr

/-- External collaborators of one invocation: the API client, the v1 configuration
obtained from `meta`, and the metadata-document fetch `GetApplicationMetadataXml`
(declared elsewhere in the package, taken as given). -/
structure Collaborators where
  client : ApplicationsApi
  configv1 : Configuration
  GetApplicationMetadataXml : String → String → String → Except GoError String

/-- Payload builder, lines 234-303; `none` is a panic. Line 236 asserts the value of
the list attribute to `[]schema.ResourceData` before anything else is done; the loop
and the literal of lines 245-302 follow, every scalar read through its own assertion. -/
def generateApplicationPayload (d : ResourceData) : Option Application := do
  let datas ← (d.Get "constant_attributes").assertResourceDataSlice
  let constants : List ApplicationConfigConstantAttributesValue :=
    datas.foldl
      (fun constants data =>
        constants ++ [{ Name := data.name
                        Value := data.value
                        ReadOnly := data.read_only
                        Required := data.required
                        Visible := data.visible }])
      []
  let beta ← (d.Get "beta").assertBool
  let name ← (d.Get "name").assertString
  let displayLabel ← (d.Get "display_label").assertString
  let ssoUrl ← (d.Get "sso_url").assertString
  let acsUrl ← (d.Get "acs_url").assertString
  let idpCertificate ← (d.Get "idp_certificate").assertString
  let idpEntityId ← (d.Get "idp_entity_id").assertString
  let idpPrivateKey ← (d.Get "idp_private_key").assertString
  let spEntityId ← (d.Get "sp_entity_id").assertString
  pure
    { Id := ""
      Beta := beta
      Name := name
      DisplayLabel := displayLabel
      SsoUrl := ssoUrl
      Config := some
        { AcsUrl := some
            { Type_ := "text", Label := "ACS Url:", Value := acsUrl
              Required := true, Visible := true, ReadOnly := false, Position := 4 }
          ConstantAttributes := some { Value := constants }
          DatabaseAttributes := some {}
          IdpCertificate := some
            { Type_ := "file", Label := "IdP Certificate:", Value := idpCertificate
              Required := true, Visible := true, ReadOnly := false, Position := 2 }
          IdpEntityId := some
            { Type_ := "text", Label := "IdP Entity ID:", Value := idpEntityId
              Required := true, Visible := true, ReadOnly := false, Position := 0 }
          IdpPrivateKey := some
            { Type_ := "file", Label := "IdP Private Key:", Value := idpPrivateKey
              Required := true, Visible := true, ReadOnly := false, Position := 1 }
          SpEntityId := some
            { Type_ := "text", Label := "SP Entity ID:", Value := spEntityId
              Required := true, Visible := true, ReadOnly := false, Position := 4 } } }

/-- Lines 185-202 of `resourceApplicationRead`: the conditional metadata lookup, run
after the get call `calls` and the attribute writes that produced `d`. -/
def readMetadata (m : Collaborators) (response : Application) (calls : List Call)
    (d : ResourceData) : Run :=
  if response.Id ≠ "" then
    let orgId := m.configv1.DefaultHeader "x-org-id"
    let apiKey := m.configv1.DefaultHeader "x-api-key"
    let calls := calls ++ [Call.metadataXml orgId response.Id apiKey]
    match m.GetApplicationMetadataXml orgId response.Id apiKey with
    | .error err => ⟨calls, .returned d (some err)⟩
    | .ok metadataXml => ⟨calls, .returned { d with metadata_xml := some metadataXml } none⟩
  else
    ⟨calls, .returned d none⟩

/-- Read, lines 141-203. The statements are taken in source order, so a nil pointer met
at line 165 or 177-181 stops the run before the later writes and before the lookup. The
scalars written are Go strings and booleans, the declared types of their attributes. -/
def resourceApplicationRead (m : Collaborators) (d : ResourceData) : Run :=
  let calls := [Call.get d.Id]
  match m.client.ApplicationsGet d.Id with
  | .error err =>
    if err.Error = "EOF" then
      ⟨calls, .returned (d.SetId "") none⟩
    else
      ⟨calls, .returned d (some err)⟩
  | .ok response =>
    let d := d.SetId response.Id
    let d := { d with display_label := response.DisplayLabel }
    let d := { d with sso_url := response.SsoUrl }
    match response.Config with
    | none => ⟨calls, .panicked d⟩
    | some config =>
    match config.ConstantAttributes with
    | none => ⟨calls, .panicked d⟩
    | some constantAttributes =>
    let constants : List Constant :=
      constantAttributes.Value.foldl
        (fun constants el =>
          constants ++ [{ name := el.Name
                          read_only := el.ReadOnly
                          value := el.Value
                          required := el.Required
                          visible := el.Visible }])
        []
    let d := d.SetConstantAttributes constants
    match config.AcsUrl with
    | none => ⟨calls, .panicked d⟩
    | some acsUrl =>
    let d := { d with acs_url := acsUrl.Value }
    match config.IdpCertificate with
    | none => ⟨calls, .panicked d⟩
    | some idpCertificate =>
    let d := { d with idp_certificate := idpCertificate.Value }
    match config.IdpPrivateKey with
    | none => ⟨calls, .panicked d⟩
    | some idpPrivateKey =>
    let d := { d with idp_private_key := idpPrivateKey.Value }
    match config.IdpEntityId with
    | none => ⟨calls, .panicked d⟩
    | some idpEntityId =>
    let d := { d with idp_entity_id := idpEntityId.Value }
    match config.SpEntityId with
    | none => ⟨calls, .panicked d⟩
    | some spEntityId =>
    let d := { d with sp_entity_id := spEntityId.Value }
    let d := { d with name := response.Name }
    let d := { d with beta := response.Beta }
    readMetadata m response calls d

/-- Create, lines 123-139. The payload is built at line 127, before the create call of
line 132; a panic there ends the run with no call issued. -/
def resourceApplicationCreate (m : Collaborators) (d : ResourceData) : Run :=
  match generateApplicationPayload d with
  | none => ⟨[], .panicked d⟩
  | some payload =>
    match m.client.ApplicationsPost payload with
    | .error err => ⟨[Call.post payload], .returned d (some err)⟩
    | .ok returnStruct =>
      let r := resourceApplicationRead m (d.SetId returnStruct.Id)
      ⟨Call.post payload :: r.calls, r.outcome⟩

/-- Update, lines 205-219. The payload is built at line 209, before the update call of
line 214; a panic there ends the run with no call issued. -/
def resourceApplicationUpdate (m : Collaborators) (d : ResourceData) : Run :=
  match generateApplicationPayload d with
  | none => ⟨[], .panicked d⟩
  | some payload =>
    match m.client.ApplicationsPut d.Id payload with
    | .error err => ⟨[Call.put d.Id payload], .returned d (some err)⟩
    | .ok _ =>
      let r := resourceApplicationRead m d
      ⟨Call.put d.Id payload :: r.calls, r.outcome⟩

/-- Delete, lines 221-232. -/
def resourceApplicationDelete (m : Collaborators) (d : ResourceData) : Run :=
  match m.client.ApplicationsDelete d.Id with
  | .error err => ⟨[Call.delete d.Id], .returned d (some err)⟩
  | .ok _ => ⟨[Call.delete d.Id], .returned (d.SetId "") none⟩

/-! ## Concrete inputs used to evaluate the definitions -/

/-- Record of the spec's example, completed with the five wrapped scalars. -/
def awsRecord : ResourceData :=
  { id := "app-1", name := "aws-app", beta := false, display_label := "AWS"
    sso_url := "aws", learn_more := "docs"
    constant_attributes :=
      [{ name := "role", value := "admin", read_only := false, required := true,
         visible := true }]
    idp_certificate := "CERT", idp_entity_id := "idp", idp_private_key := "KEY"
    sp_entity_id := "sp", acs_url := "https://acs", metadata_xml := none }

/-- The example record with a second constant after the first. -/
def twoConstantsRecord : ResourceData :=
  { awsRecord with
    constant_attributes :=
      [{ name := "role", value := "admin", read_only := false, required := true,
         visible := true },
       { name := "region", value := "eu", read_only := true, required := false,
         visible := true }] }

/-- Error with the text of the not-found signal. -/
def eofError : GoError := { Error := "EOF", code := 0 }

/-- Error with any other text. -/
def serverError : GoError := { Error := "500 Internal Server Error", code := 1 }

/-- Client configuration with both headers set. -/
def sampleConfig : Configuration :=
  { DefaultHeader := fun k =>
      if k = "x-org-id" then "org" else if k = "x-api-key" then "key" else "" }

/-- Collaborators whose get call answers `get`, whose mutating calls answer `mutate`
and whose metadata fetch answers `xml`, whatever the arguments. -/
def constCollaborators (mutate get : Except GoError Application)
    (xml : Except GoError String) : Collaborators :=
  { client :=
      { ApplicationsPost := fun _ => mutate
        ApplicationsGet := fun _ => get
        ApplicationsPut := fun _ _ => mutate
        ApplicationsDelete := fun _ => mutate }
    configv1 := sampleConfig
    GetApplicationMetadataXml := fun _ _ _ => xml }

/-- Wire constant with the five sub-fields of a record constant. -/
def Constant.toWire (c : Constant) : ApplicationConfigConstantAttributesValue :=
  { Name := c.name, Value := c.value, ReadOnly := c.read_only, Required := c.required
    Visible := c.visible }

/-- Record constant with the five sub-fields of a wire constant. -/
def Constant.ofWire (k : ApplicationConfigConstantAttributesValue) : Constant :=
  { name := k.Name, value := k.Value, read_only := k.ReadOnly, required := k.Required
    visible := k.Visible }

/-- Response fixture built directly from the values of `r`, filed under identifier `i`:
the remote application that holds what `r` declares, each wrapped scalar under the
presentation written at lines 252-300 and the constants in the order of `r`. -/
def responseOf (r : ResourceData) (i : String) : Application :=
  { Id := i
    Beta := r.beta
    Name := r.name
    DisplayLabel := r.display_label
    SsoUrl := r.sso_url
    Config := some
      { AcsUrl := some
          { Type_ := "text", Label := "ACS Url:", Value := r.acs_url
            Required := true, Visible := true, ReadOnly := false, Position := 4 }
        ConstantAttributes := some { Value := r.constant_attributes.map Constant.toWire }
        DatabaseAttributes := some {}
        IdpCertificate := some
          { Type_ := "file", Label := "IdP Certificate:", Value := r.idp_certificate
            Required := true, Visible := true, ReadOnly := false, Position := 2 }
        IdpEntityId := some
          { Type_ := "text", Label := "IdP Entity ID:", Value := r.idp_entity_id
            Required := true, Visible := true, ReadOnly := false, Position := 0 }
        IdpPrivateKey := some
          { Type_ := "file", Label := "IdP Private Key:", Value := r.idp_private_key
            Required := true, Visible := true, ReadOnly := false, Position := 1 }
        SpEntityId := some
          { Type_ := "text", Label := "SP Entity ID:", Value := r.sp_entity_id
            Required := true, Visible := true, ReadOnly := false, Position := 4 } } }

/-- Response with an identifier and scalars but no configuration object. -/
def bareResponse : Application :=
  { Id := "app-1", Beta := true, Name := "remote", DisplayLabel := "Remote"
    SsoUrl := "remote-sso", Config := none }

/-- Collaborators that answer the get call with the fixture of the spec's example
record, filed under another identifier. -/
def echoCollaborators : Collaborators :=
  constCollaborators (.error serverError) (.ok (responseOf awsRecord "app-9"))
    (.ok "<EntityDescriptor/>")

/-- Collaborators that answer the get call with the fixture of the record with two
constants. -/
def twoConstantsCollaborators : Collaborators :=
  constCollaborators (.error serverError) (.ok (responseOf twoConstantsRecord "app-1"))
    (.ok "<EntityDescriptor/>")

/-- Response with a non-empty identifier whose configuration object is present but
holds no wrapper and no constant-attributes object. -/
def hollowResponse : Application :=
  { Id := "app-7", Beta := false, Name := "bookmark", DisplayLabel := "Bookmark"
    SsoUrl := "bookmark"
    Config := some
      { AcsUrl := none, ConstantAttributes := none, DatabaseAttributes := none
        IdpCertificate := none, IdpEntityId := none, IdpPrivateKey := none
        SpEntityId := none } }

/-- Collaborators whose every call succeeds: the API answers the fixture of the example
record filed under "app-9" and the metadata fetch answers a document. -/
def happyCollaborators : Collaborators :=
  constCollaborators (.ok (responseOf awsRecord "app-9")) (.ok (responseOf awsRecord "app-9"))
    (.ok "<EntityDescriptor/>")

/-- Collaborators whose API calls all fail with the error `err`. -/
def failingCollaborators (err : GoError) : Collaborators :=
  constCollaborators (.error err) (.error err) (.ok "<EntityDescriptor/>")

/-- Collaborators whose get call answers `bareResponse`. -/
def bareCollaborators : Collaborators :=
  constCollaborators (.error serverError) (.ok bareResponse) (.ok "<EntityDescriptor/>")

/-- Collaborators whose get call answers `hollowResponse`. -/
def hollowCollaborators : Collaborators :=
  constCollaborators (.error serverError) (.ok hollowResponse) (.ok "<EntityDescriptor/>")

/-! ## Shared lemmas -/

/-- Appending one image per element, left to right, is mapping: the shape of both
loops over constants. -/
theorem foldl_append_singleton {α β : Type} (f : α → β) (xs : List α) (acc : List β) :
    xs.foldl (fun acc x => acc ++ [f x]) acc = acc ++ xs.map f := by
  induction xs generalizing acc with
  | nil => simp
  | cons x xs ih => simp [ih]

/-- The list attribute is read as a `[]interface{}`, whatever the record holds. -/
theorem get_constant_attributes (d : ResourceData) :
    d.Get "constant_attributes" = .interfaceSlice d.constant_attributes := by
  simp [ResourceData.Get]

/-- The payload builder panics at the assertion of line 236 for every record, the empty
list of constants included: no payload is ever returned. -/
theorem generateApplicationPayload_panics (d : ResourceData) :
    generateApplicationPayload d = none := by
  unfold generateApplicationPayload
  rw [get_constant_attributes]
  rfl

/-- Create stops at line 127: no call is issued, nothing is returned, and the record
is as it was. -/
theorem create_panics (m : Collaborators) (d : ResourceData) :
    resourceApplicationCreate m d = ⟨[], .panicked d⟩ := by
  unfold resourceApplicationCreate
  rw [generateApplicationPayload_panics]

/-- Update stops at line 209: no call is issued, nothing is returned, and the record
is as it was. -/
theorem update_panics (m : Collaborators) (d : ResourceData) :
    resourceApplicationUpdate m d = ⟨[], .panicked d⟩ := by
  unfold resourceApplicationUpdate
  rw [generateApplicationPayload_panics]

/-- The entry stored for any `Constant` is the blank one. -/
theorem ofFields_exportedFields (c : Constant) :
    Constant.ofFields c.exportedFields =
      { name := "", value := "", read_only := false, required := false, visible := false } :=
  rfl

/-- Read on a response whose configuration object, constant-attributes object and five
wrappers are all present: every attribute write is reached, then the metadata step. -/
theorem read_of_present (m : Collaborators) (d : ResourceData) (response : Application)
    (config : ApplicationConfig) (ca : ApplicationConfigConstantAttributes)
    (acsUrl idpCertificate idpPrivateKey idpEntityId spEntityId : ApplicationConfigAcsUrl)
    (hget : m.client.ApplicationsGet d.Id = .ok response)
    (hconfig : response.Config = some config)
    (hca : config.ConstantAttributes = some ca)
    (h1 : config.AcsUrl = some acsUrl)
    (h2 : config.IdpCertificate = some idpCertificate)
    (h3 : config.IdpPrivateKey = some idpPrivateKey)
    (h4 : config.IdpEntityId = some idpEntityId)
    (h5 : config.SpEntityId = some spEntityId) :
    resourceApplicationRead m d =
      readMetadata m response [Call.get d.Id]
        { id := response.Id, name := response.Name, beta := response.Beta
          display_label := response.DisplayLabel, sso_url := response.SsoUrl
          learn_more := d.learn_more
          constant_attributes :=
            (ca.Value.map Constant.ofWire).map (fun c => Constant.ofFields c.exportedFields)
          idp_certificate := idpCertificate.Value
          idp_entity_id := idpEntityId.Value
          idp_private_key := idpPrivateKey.Value
          sp_entity_id := spEntityId.Value
          acs_url := acsUrl.Value
          metadata_xml := d.metadata_xml } := by
  unfold resourceApplicationRead
  have h := foldl_append_singleton Constant.ofWire ca.Value []
  simp only [Constant.ofWire, List.nil_append] at h
  simp only [hget, hconfig, hca, h1, h2, h3, h4, h5, h, ResourceData.SetId,
    ResourceData.SetConstantAttributes, Constant.ofWire]

/-- The metadata step returns, touches no attribute other than `metadata_xml`, and adds
at most the one lookup to the calls. -/
theorem readMetadata_spec (m : Collaborators) (response : Application) (calls : List Call)
    (d : ResourceData) :
    ∃ d' diags,
      (readMetadata m response calls d).outcome = .returned d' diags ∧
      { d' with metadata_xml := d.metadata_xml } = d ∧
      ((readMetadata m response calls d).calls = calls ∨
        (readMetadata m response calls d).calls =
          calls ++ [Call.metadataXml (m.configv1.DefaultHeader "x-org-id") response.Id
            (m.configv1.DefaultHeader "x-api-key")]) := by
  unfold readMetadata
  by_cases hid : response.Id = ""
  · exact ⟨d, none, by simp [hid]⟩
  · cases hx : m.GetApplicationMetadataXml (m.configv1.DefaultHeader "x-org-id") response.Id
        (m.configv1.DefaultHeader "x-api-key") with
    | error err => exact ⟨d, some err, by simp [hid, hx]⟩
    | ok xml => exact ⟨{ d with metadata_xml := some xml }, none, by simp [hid, hx]⟩

/-- The metadata step leaves every attribute other than `metadata_xml` as it found it:
any reading `f` of the record that does not look at `metadata_xml` is unchanged. -/
theorem readMetadata_record {α : Type} (f : ResourceData → α)
    (hf : ∀ (d : ResourceData) (x : Option String), f { d with metadata_xml := x } = f d)
    (m : Collaborators) (response : Application) (calls : List Call) (d : ResourceData) :
    f (readMetadata m response calls d).outcome.record = f d := by
  obtain ⟨d', diags, hout, hd, -⟩ := readMetadata_spec m response calls d
  rw [hout, ← hd]
  exact (hf d' d.metadata_xml).symm

/-- After a get call that answered a response with a constant list of M entries, the
record holds M entries, each of them blank, whether Read goes on to return or stops at
a nil wrapper: the write of line 176 keeps the length and drops the sub-fields. -/
theorem read_constants_blank (m : Collaborators) (d : ResourceData) (response : Application)
    (config : ApplicationConfig) (ca : ApplicationConfigConstantAttributes)
    (hget : m.client.ApplicationsGet d.Id = .ok response)
    (hconfig : response.Config = some config)
    (hca : config.ConstantAttributes = some ca) :
    (resourceApplicationRead m d).outcome.record.constant_attributes =
      ca.Value.map (fun _ =>
        { name := "", value := "", read_only := false, required := false,
          visible := false }) := by
  unfold resourceApplicationRead
  have h := foldl_append_singleton Constant.ofWire ca.Value []
  simp only [Constant.ofWire, List.nil_append] at h
  simp only [hget, hconfig, hca, h, ResourceData.SetConstantAttributes]
  have hblank : (ca.Value.map Constant.ofWire).map
      (fun c => Constant.ofFields c.exportedFields) =
      ca.Value.map (fun _ =>
        ({ name := "", value := "", read_only := false, required := false,
           visible := false } : Constant)) := by
    rw [List.map_map]
    rfl
  split
  · exact hblank
  split
  · exact hblank
  split
  · exact hblank
  split
  · exact hblank
  split
  · exact hblank
  exact (readMetadata_record (fun d => d.constant_attributes) (fun _ _ => rfl) _ _ _ _).trans
    hblank

/-- After a get call that answered a response, the record holds the response's
identifier, display label and SSO URL, whether Read goes on to return or stops at a nil
pointer: these three are written before the configuration object is looked into. -/
theorem read_early_writes (m : Collaborators) (d : ResourceData) (response : Application)
    (hget : m.client.ApplicationsGet d.Id = .ok response) :
    (resourceApplicationRead m d).outcome.record.id = response.Id ∧
    (resourceApplicationRead m d).outcome.record.display_label = response.DisplayLabel ∧
    (resourceApplicationRead m d).outcome.record.sso_url = response.SsoUrl := by
  unfold resourceApplicationRead
  simp only [hget]
  split
  · exact ⟨rfl, rfl, rfl⟩
  split
  · exact ⟨rfl, rfl, rfl⟩
  split
  · exact ⟨rfl, rfl, rfl⟩
  split
  · exact ⟨rfl, rfl, rfl⟩
  split
  · exact ⟨rfl, rfl, rfl⟩
  split
  · exact ⟨rfl, rfl, rfl⟩
  split
  · exact ⟨rfl, rfl, rfl⟩
  exact ⟨readMetadata_record (fun d => d.id) (fun _ _ => rfl) _ _ _ _,
    readMetadata_record (fun d => d.display_label) (fun _ _ => rfl) _ _ _ _,
    readMetadata_record (fun d => d.sso_url) (fun _ _ => rfl) _ _ _ _⟩

/-- The metadata step issues the lookup exactly when the response identifier is
non-empty, given that none of the calls made before it is a lookup. -/
theorem readMetadata_lookup (m : Collaborators) (response : Application) (calls : List Call)
    (d : ResourceData) (hcalls : calls.any Call.isMetadataXml = false) :
    ((readMetadata m response calls d).calls.any Call.isMetadataXml = true ↔
      response.Id ≠ "") := by
  unfold readMetadata
  by_cases hid : response.Id = ""
  · simp [hid, hcalls]
  · cases hx : m.GetApplicationMetadataXml (m.configv1.DefaultHeader "x-org-id") response.Id
        (m.configv1.DefaultHeader "x-api-key") with
    | error err => simp [hid, hx, Call.isMetadataXml]
    | ok xml => simp [hid, hx, Call.isMetadataXml]

/-- The metadata step adds at most one call. -/
theorem readMetadata_calls_length (m : Collaborators) (response : Application)
    (calls : List Call) (d : ResourceData) :
    (readMetadata m response calls d).calls.length ≤ calls.length + 1 := by
  obtain ⟨_, _, -, -, h | h⟩ := readMetadata_spec m response calls d <;> simp [h]

/-- Read issues the get call and at most the one lookup. -/
theorem read_calls_length (m : Collaborators) (d : ResourceData) :
    (resourceApplicationRead m d).calls.length ≤ 2 := by
  unfold resourceApplicationRead
  split
  · split <;> simp
  split
  · simp
  split
  · simp
  split
  · simp
  split
  · simp
  split
  · simp
  split
  · simp
  split
  · simp
  exact readMetadata_calls_length _ _ _ _

/-- Read never issues a lookup when the response identifier is empty, and leaves
`metadata_xml` as it found it, whether it returns or stops at a nil pointer. -/
theorem read_empty_id (m : Collaborators) (d : ResourceData) (response : Application)
    (hget : m.client.ApplicationsGet d.Id = .ok response) :
    ((resourceApplicationRead m d).calls.any Call.isMetadataXml = true → response.Id ≠ "") ∧
    (response.Id = "" →
      (resourceApplicationRead m d).outcome.record.metadata_xml = d.metadata_xml) := by
  unfold resourceApplicationRead
  simp only [hget]
  split
  · simp [Call.isMetadataXml, Outcome.record, ResourceData.SetId,
      ResourceData.SetConstantAttributes]
  split
  · simp [Call.isMetadataXml, Outcome.record, ResourceData.SetId,
      ResourceData.SetConstantAttributes]
  split
  · simp [Call.isMetadataXml, Outcome.record, ResourceData.SetId,
      ResourceData.SetConstantAttributes]
  split
  · simp [Call.isMetadataXml, Outcome.record, ResourceData.SetId,
      ResourceData.SetConstantAttributes]
  split
  · simp [Call.isMetadataXml, Outcome.record, ResourceData.SetId,
      ResourceData.SetConstantAttributes]
  split
  · simp [Call.isMetadataXml, Outcome.record, ResourceData.SetId,
      ResourceData.SetConstantAttributes]
  split
  · simp [Call.isMetadataXml, Outcome.record, ResourceData.SetId,
      ResourceData.SetConstantAttributes]
  refine ⟨(readMetadata_lookup m response _ _ (by simp [Call.isMetadataXml, ResourceData.Id])).mp, ?_⟩
  intro hid
  simp [readMetadata, hid, Outcome.record, ResourceData.SetId,
    ResourceData.SetConstantAttributes]

/-! ## Payload builder -/

/-- C8, evaluated on the spec's example record: the builder panics at the type assertion
of line 236 and returns no payload, so there is no wrapper to carry the presentation of
lines 252-300; the same happens for the record without constants. -/
theorem wrapper_presentation_no_payload :
    awsRecord.Get "constant_attributes" = .interfaceSlice awsRecord.constant_attributes ∧
    (awsRecord.Get "constant_attributes").assertResourceDataSlice = none ∧
    generateApplicationPayload awsRecord = none ∧
    generateApplicationPayload { awsRecord with constant_attributes := [] } = none :=
  ⟨get_constant_attributes _, by rw [get_constant_attributes]; rfl,
    generateApplicationPayload_panics _, generateApplicationPayload_panics _⟩

/-- C2, evaluated on a record with two constants: the builder returns no payload (panic
at line 236), and Read against a response that lists the same two constants returns
and leaves two entries, both blank: the length is kept, name, value, read_only,
required and visible are not. -/
theorem constant_attributes_not_preserved :
    generateApplicationPayload twoConstantsRecord = none ∧
    twoConstantsCollaborators.client.ApplicationsGet twoConstantsRecord.Id
      = .ok (responseOf twoConstantsRecord "app-1") ∧
    (resourceApplicationRead twoConstantsCollaborators twoConstantsRecord).outcome.diags
      = some none ∧
    (resourceApplicationRead twoConstantsCollaborators
      twoConstantsRecord).outcome.record.constant_attributes =
        [{ name := "", value := "", read_only := false, required := false, visible := false },
         { name := "", value := "", read_only := false, required := false, visible := false }] ∧
    ((resourceApplicationRead twoConstantsCollaborators
      twoConstantsRecord).outcome.record.constant_attributes.map (fun c => c.name))
        ≠ ["role", "region"] := by
  refine ⟨generateApplicationPayload_panics _, rfl, rfl, rfl, ?_⟩
  decide

/-! ## Round trip -/

/-- C1, evaluated on the spec's example record: no payload is built from it (panic at
line 236); and when the get call answers the fixture built from the record's own
values, Read returns no error, keeps name and learn-more text, but leaves a blank
entry in place of the record's constant. -/
theorem roundtrip_build_populate_fails :
    generateApplicationPayload awsRecord = none ∧
    echoCollaborators.client.ApplicationsGet awsRecord.Id = .ok (responseOf awsRecord "app-9") ∧
    (resourceApplicationRead echoCollaborators awsRecord).outcome.diags = some none ∧
    (resourceApplicationRead echoCollaborators awsRecord).outcome.record.name
      = awsRecord.name ∧
    (resourceApplicationRead echoCollaborators awsRecord).outcome.record.learn_more
      = awsRecord.learn_more ∧
    (resourceApplicationRead echoCollaborators awsRecord).outcome.record.constant_attributes
      = [{ name := "", value := "", read_only := false, required := false, visible := false }] ∧
    (resourceApplicationRead echoCollaborators awsRecord).outcome.record.constant_attributes
      ≠ awsRecord.constant_attributes := by
  refine ⟨generateApplicationPayload_panics _, rfl, rfl, rfl, rfl, rfl, ?_⟩
  decide

/-! ## Failed external calls -/

/-- C3: when the get call fails with an error, Read returns no error if and only if the
text of the error is exactly "EOF"; in that case the identifier is cleared to the empty
string and every other attribute is unchanged; for any other error Read returns that
same error and leaves the whole record, identifier included, unchanged. In both cases
the get call is the only external call: no metadata lookup is issued. -/
theorem read_failed_get (m : Collaborators) (d : ResourceData) (err : GoError)
    (hget : m.client.ApplicationsGet d.Id = .error err) :
    ((resourceApplicationRead m d).outcome.diags = some none ↔ err.Error = "EOF") ∧
    (err.Error = "EOF" →
      resourceApplicationRead m d =
        ⟨[Call.get d.Id], .returned { d with id := "" } none⟩) ∧
    (err.Error ≠ "EOF" →
      resourceApplicationRead m d = ⟨[Call.get d.Id], .returned d (some err)⟩) := by
  unfold resourceApplicationRead
  simp only [hget]
  by_cases h : err.Error = "EOF"
  · simp [h, Outcome.diags, ResourceData.SetId]
  · simp [h, Outcome.diags]

/-- Witness of C3: a get call failing with "EOF" on the example record. -/
theorem read_failed_get_witness :
    resourceApplicationRead (failingCollaborators eofError) awsRecord =
      ⟨[Call.get "app-1"], .returned { awsRecord with id := "" } none⟩ :=
  (read_failed_get (failingCollaborators eofError) awsRecord eofError rfl).2.1 rfl

/-- C5: for a record with a non-empty identifier, if the delete call succeeds Delete
returns no error and leaves the record with an empty identifier (every other attribute
as it was); if the delete call fails Delete returns that error and leaves the record,
with its non-empty identifier, unchanged. -/
theorem delete_clears_identifier_on_success (m : Collaborators) (d : ResourceData)
    (hid : d.Id ≠ "") :
    (∀ a : Application, m.client.ApplicationsDelete d.Id = .ok a →
      resourceApplicationDelete m d =
        ⟨[Call.delete d.Id], .returned { d with id := "" } none⟩) ∧
    (∀ err : GoError, m.client.ApplicationsDelete d.Id = .error err →
      resourceApplicationDelete m d = ⟨[Call.delete d.Id], .returned d (some err)⟩ ∧
      (resourceApplicationDelete m d).outcome.record.Id ≠ "") := by
  constructor
  · intro a h
    unfold resourceApplicationDelete
    simp only [h, ResourceData.SetId]
  · intro err h
    unfold resourceApplicationDelete
    simp only [h]
    exact ⟨trivial, hid⟩

/-- Witness of C5: a successful delete of the example record, whose identifier is
"app-1". -/
theorem delete_clears_identifier_on_success_witness :
    awsRecord.Id ≠ "" ∧
    resourceApplicationDelete happyCollaborators awsRecord =
      ⟨[Call.delete "app-1"], .returned { awsRecord with id := "" } none⟩ :=
  ⟨by decide,
    (delete_clears_identifier_on_success happyCollaborators awsRecord (by decide)).1
      (responseOf awsRecord "app-9") rfl⟩

/-! ## State population -/

/-- C6, as stated, fails: the get call answers a response without configuration object;
Read stops at the nil pointer of line 165 and the record keeps its old name instead of
the name of the response. -/
theorem read_populates_record_counterexample :
    bareCollaborators.client.ApplicationsGet awsRecord.Id = .ok bareResponse ∧
    (resourceApplicationRead bareCollaborators awsRecord).outcome.diags = none ∧
    (resourceApplicationRead bareCollaborators awsRecord).outcome.record.name = "aws-app" ∧
    (resourceApplicationRead bareCollaborators awsRecord).outcome.record.name
      ≠ bareResponse.Name := by
  refine ⟨rfl, rfl, rfl, ?_⟩
  decide

/-- C6, amended: after a get call that answered a response, the record's identifier,
display label and SSO URL equal the response's. If moreover the configuration object of
the response, its constant-attributes object and its five wrappers are all present,
Read returns, the record's name and beta flag equal the response's, and its ACS URL,
IdP certificate, IdP private key, IdP entity ID and SP entity ID equal the values of
the corresponding wrappers; and when the metadata lookup then fails, Read returns the
lookup's error with these attributes written all the same. -/
theorem read_populates_record (m : Collaborators) (d : ResourceData) (response : Application)
    (hget : m.client.ApplicationsGet d.Id = .ok response) :
    ((resourceApplicationRead m d).outcome.record.id = response.Id ∧
      (resourceApplicationRead m d).outcome.record.display_label = response.DisplayLabel ∧
      (resourceApplicationRead m d).outcome.record.sso_url = response.SsoUrl) ∧
    ∀ (config : ApplicationConfig) (ca : ApplicationConfigConstantAttributes)
      (acsUrl idpCertificate idpPrivateKey idpEntityId spEntityId : ApplicationConfigAcsUrl),
      response.Config = some config →
      config.ConstantAttributes = some ca →
      config.AcsUrl = some acsUrl →
      config.IdpCertificate = some idpCertificate →
      config.IdpPrivateKey = some idpPrivateKey →
      config.IdpEntityId = some idpEntityId →
      config.SpEntityId = some spEntityId →
      ∃ d' diags,
        (resourceApplicationRead m d).outcome = .returned d' diags ∧
        d'.id = response.Id ∧ d'.name = response.Name ∧
        d'.display_label = response.DisplayLabel ∧ d'.sso_url = response.SsoUrl ∧
        d'.beta = response.Beta ∧
        d'.acs_url = acsUrl.Value ∧ d'.idp_certificate = idpCertificate.Value ∧
        d'.idp_private_key = idpPrivateKey.Value ∧ d'.idp_entity_id = idpEntityId.Value ∧
        d'.sp_entity_id = spEntityId.Value ∧
        (∀ err : GoError, response.Id ≠ "" →
          m.GetApplicationMetadataXml (m.configv1.DefaultHeader "x-org-id") response.Id
            (m.configv1.DefaultHeader "x-api-key") = .error err →
          diags = some err) := by
  refine ⟨read_early_writes m d response hget, ?_⟩
  intro config ca acsUrl idpCertificate idpPrivateKey idpEntityId spEntityId
    hconfig hca h1 h2 h3 h4 h5
  rw [read_of_present m d response config ca acsUrl idpCertificate idpPrivateKey idpEntityId
    spEntityId hget hconfig hca h1 h2 h3 h4 h5]
  unfold readMetadata
  by_cases hid : response.Id = ""
  · simp [hid]
  · cases hx : m.GetApplicationMetadataXml (m.configv1.DefaultHeader "x-org-id") response.Id
        (m.configv1.DefaultHeader "x-api-key") with
    | error err =>
      simp only [hid, hx, ne_eq, not_false_eq_true, if_true]
      refine ⟨_, _, rfl, rfl, rfl, rfl, rfl, rfl, rfl, rfl, rfl, rfl, rfl, ?_⟩
      intro err2 _ herr
      rw [Except.error.injEq] at herr
      rw [herr]
    | ok xml => simp [hid, hx]

/-- Witness of C6 as amended: Read of the example record against the fixture of its own
values, filed under "app-9", returns with the identifier and the name of the response. -/
theorem read_populates_record_witness :
    echoCollaborators.client.ApplicationsGet awsRecord.Id = .ok (responseOf awsRecord "app-9") ∧
    ∃ d' diags,
      (resourceApplicationRead echoCollaborators awsRecord).outcome = .returned d' diags ∧
      d'.id = "app-9" ∧ d'.name = "aws-app" ∧ d'.acs_url = "https://acs" := by
  refine ⟨rfl, ?_⟩
  obtain ⟨d', diags, hout, hid, hname, -, -, -, hacs, -⟩ :=
    (read_populates_record echoCollaborators awsRecord (responseOf awsRecord "app-9") rfl).2
      _ _ _ _ _ _ _ rfl rfl rfl rfl rfl rfl rfl
  exact ⟨d', diags, hout, hid, hname, hacs⟩

/-! ## Metadata lookup -/

/-- C7, as stated, fails: the get call answers a response with a non-empty identifier
whose configuration object holds no constant-attributes object; Read stops at the nil
pointer and no metadata lookup is issued, although the identifier is non-empty. -/
theorem metadata_lookup_iff_identifier_counterexample :
    hollowCollaborators.client.ApplicationsGet awsRecord.Id = .ok hollowResponse ∧
    hollowResponse.Id ≠ "" ∧
    (resourceApplicationRead hollowCollaborators awsRecord).calls = [Call.get "app-1"] ∧
    (resourceApplicationRead hollowCollaborators awsRecord).calls.any Call.isMetadataXml
      = false := by
  refine ⟨rfl, ?_, rfl, rfl⟩
  decide

/-- C7, amended: after a get call that answered a response, a metadata lookup is issued
only if the response identifier is non-empty, and with an empty identifier the
metadata XML attribute is left as it was. If moreover the configuration object of the
response, its constant-attributes object and its five wrappers are all present, the
lookup is issued if and only if the identifier is non-empty, and with an empty
identifier Read returns no error. -/
theorem metadata_lookup_iff_identifier (m : Collaborators) (d : ResourceData)
    (response : Application) (hget : m.client.ApplicationsGet d.Id = .ok response) :
    ((resourceApplicationRead m d).calls.any Call.isMetadataXml = true → response.Id ≠ "") ∧
    (response.Id = "" →
      (resourceApplicationRead m d).outcome.record.metadata_xml = d.metadata_xml) ∧
    ∀ (config : ApplicationConfig) (ca : ApplicationConfigConstantAttributes)
      (acsUrl idpCertificate idpPrivateKey idpEntityId spEntityId : ApplicationConfigAcsUrl),
      response.Config = some config →
      config.ConstantAttributes = some ca →
      config.AcsUrl = some acsUrl →
      config.IdpCertificate = some idpCertificate →
      config.IdpPrivateKey = some idpPrivateKey →
      config.IdpEntityId = some idpEntityId →
      config.SpEntityId = some spEntityId →
      ((resourceApplicationRead m d).calls.any Call.isMetadataXml = true ↔
        response.Id ≠ "") ∧
      (response.Id = "" →
        (resourceApplicationRead m d).calls = [Call.get d.Id] ∧
        (resourceApplicationRead m d).outcome.diags = some none) := by
  refine ⟨(read_empty_id m d response hget).1, (read_empty_id m d response hget).2, ?_⟩
  intro config ca acsUrl idpCertificate idpPrivateKey idpEntityId spEntityId
    hconfig hca h1 h2 h3 h4 h5
  rw [read_of_present m d response config ca acsUrl idpCertificate idpPrivateKey idpEntityId
    spEntityId hget hconfig hca h1 h2 h3 h4 h5]
  refine ⟨readMetadata_lookup m response _ _ (by simp [Call.isMetadataXml]), ?_⟩
  intro hid
  simp [readMetadata, hid, Outcome.diags]

/-- Witness of C7 as amended: Read of the example record against its fixture filed
under the empty identifier issues the get call only and returns no error. -/
theorem metadata_lookup_iff_identifier_witness :
    (constCollaborators (.error serverError) (.ok (responseOf awsRecord ""))
      (.error serverError)).client.ApplicationsGet awsRecord.Id
        = .ok (responseOf awsRecord "") ∧
    (resourceApplicationRead (constCollaborators (.error serverError)
      (.ok (responseOf awsRecord "")) (.error serverError)) awsRecord).calls
        = [Call.get awsRecord.Id] ∧
    (resourceApplicationRead (constCollaborators (.error serverError)
      (.ok (responseOf awsRecord "")) (.error serverError)) awsRecord).outcome.diags
        = some none :=
  ⟨rfl,
    ((metadata_lookup_iff_identifier (constCollaborators (.error serverError)
      (.ok (responseOf awsRecord "")) (.error serverError)) awsRecord
      (responseOf awsRecord "") rfl).2.2 _ _ _ _ _ _ _ rfl rfl rfl rfl rfl rfl rfl).2 rfl⟩

/-! ## Number of external calls -/

/-- C9: in one invocation each of Create, Read, Update and Delete issues at most two
external calls, the create, get, update and delete calls and the metadata lookup
counted one each. Read issues the get call and at most the one lookup, Delete issues
its one call, and Create and Update stop at lines 127 and 209 before issuing any. -/
theorem external_calls_bound (m : Collaborators) (d : ResourceData) :
    (resourceApplicationCreate m d).calls.length ≤ 2 ∧
    (resourceApplicationRead m d).calls.length ≤ 2 ∧
    (resourceApplicationUpdate m d).calls.length ≤ 2 ∧
    (resourceApplicationDelete m d).calls.length ≤ 2 := by
  refine ⟨?_, read_calls_length m d, ?_, ?_⟩
  · rw [create_panics]
    simp
  · rw [update_panics]
    simp
  · unfold resourceApplicationDelete
    split <;> simp

end Provider
